import Mathlib

/-!
Verification of `async_request.py`: an asynchronous HTTP GET helper

```python
async def fetch_data(url: str) -> str:
    async with aiohttp.ClientSession() as session:
        async with session.get(url) as response:
            response.raise_for_status()
            return await response.text()

if __name__ == "__main__":
    url = "https://example.com"
    response_text = asyncio.run(fetch_data(url))
    print(response_text)
```

The embedding models the network as a function from URLs to behaviors
(either a transport-level failure before any status is obtained, or a
response carrying a status code and a body).  `fetch_data` is embedded as
a function of that network and the URL, returning both its outcome and
the ordered trace of observable events it performs (session acquisition
and release, request issuance, status inspection, body read), so that
resource-lifecycle and ordering properties can be stated.
-/

namespace AsyncRequest

/-- A server response as seen by the client: an HTTP status code and the
decoded body text. -/
structure HttpResponse where
  status : Nat
  body : String
deriving Repr, DecidableEq

/-- What the network does for a given URL: either the request fails at the
transport level before any status code is obtained (DNS failure, connection
refusal, transport-level timeout), or the server delivers a response. -/
inductive NetBehavior
  | transportFail
  | respond (r : HttpResponse)
deriving Repr, DecidableEq

/-- The network environment: each URL is routed to a behavior.  The
environment is immutable during a run, matching a mock server with fixed
routes. -/
def World : Type := String → NetBehavior

/-- Observable events of one run, in order of occurrence. -/
inductive Event
  | acquireSession
  | sendRequest (url : String)
  | checkStatus (status : Nat)
  | readBody (url : String)
  | print (text : String)
  | releaseSession
deriving Repr, DecidableEq

/-- Outcome of `fetch_data`: the returned body text, or one of the two
aiohttp error kinds.  `clientResponseError` is aiohttp's
`ClientResponseError` (the spec's `HTTPStatusError`), raised by
`raise_for_status` and carrying the status code and the requested URL;
`clientConnectorError` is the transport-level failure (the spec's
`TransportError`), carrying the requested URL. -/
inductive FetchResult
  | ok (body : String)
  | clientResponseError (status : Nat) (url : String)
  | clientConnectorError (url : String)
deriving Repr, DecidableEq

/-- aiohttp's `response.raise_for_status()` raises `ClientResponseError`
exactly when the status code is at least 400 (`ok` is `400 > status`). -/
def raise_for_status (status : Nat) : Bool :=
  400 ≤ status

/-- Embedding of `fetch_data(url)`.  The `async with aiohttp.ClientSession()`
block acquires a session on entry and releases it on every exit path;
`session.get(url)` issues the single GET request; on a transport failure the
error propagates (no status is ever inspected); otherwise
`response.raise_for_status()` inspects the status and raises for a bad one
before the body is ever read; only then does `await response.text()`
materialize the body, which is returned unchanged. -/
def fetch_data (w : World) (url : String) : FetchResult × List Event :=
  match w url with
  | .transportFail =>
      (.clientConnectorError url,
       [.acquireSession, .sendRequest url, .releaseSession])
  | .respond r =>
      if raise_for_status r.status then
        (.clientResponseError r.status url,
         [.acquireSession, .sendRequest url, .checkStatus r.status,
          .releaseSession])
      else
        (.ok r.body,
         [.acquireSession, .sendRequest url, .checkStatus r.status,
          .readBody url, .releaseSession])

/-- Two sequential calls of `fetch_data` on the same URL: the pair of
outcomes and the concatenated event trace.  No state is carried from the
first call to the second. -/
def fetch_data_twice (w : World) (url : String) :
    (FetchResult × FetchResult) × List Event :=
  (((fetch_data w url).1, (fetch_data w url).1),
   (fetch_data w url).2 ++ (fetch_data w url).2)

/-- The URL hardcoded in the module's `__main__` block. -/
def mainUrl : String := "https://example.com"

/-- Embedding of the `__main__` block: run `fetch_data` on the hardcoded
URL; on success print the text and exit 0; on an uncaught error print
nothing and exit with a nonzero code (Python's uncaught-exception exit
status is 1). -/
def runScript (w : World) : List Event × Nat :=
  match fetch_data w mainUrl with
  | (.ok body, t) => (t ++ [.print body], 0)
  | (_, t) => (t, 1)

/-- Embedding of executing the module's top level: its only statements are
imports, the definition of `fetch_data`, and the `if __name__ == "__main__"`
guard, so events occur only when the module runs as the main script. -/
def runModule (isMain : Bool) (w : World) : List Event :=
  if isMain then (runScript w).1 else []

/-- Recognizer for request-issuance events. -/
def isSendRequest : Event → Bool
  | .sendRequest _ => true
  | _ => false

/-- The mock server of the test suite: `GET /test` answers 200 with body
"Mock response data"; every other path (e.g. `/nonexistent`) answers 404
with aiohttp's default not-found body. -/
def mockWorld : World := fun url =>
  if url = "http://localhost:8080/test" then
    .respond ⟨200, "Mock response data"⟩
  else
    .respond ⟨404, "404: Not Found"⟩

/-- A network on which every URL fails at the transport level (an
unreachable host/port). -/
def deadWorld : World := fun _ => .transportFail

/-- A mock server answering a 304 Not Modified (a non-followed 3xx) with an
empty body on every URL. -/
def redirectWorld : World := fun _ => .respond ⟨304, ""⟩

end AsyncRequest

namespace AsyncRequest

/-- C1: for every URL whose server responds with a success status (any
status below 400, in particular 200 with body "Mock response data"),
`fetch_data` returns exactly the decoded response body unchanged. -/
theorem fetch_data_success_returns_body (w : World) (url : String)
    (r : HttpResponse) (hw : w url = .respond r) (hs : r.status < 400) :
    (fetch_data w url).1 = .ok r.body := by
  simp [fetch_data, hw, raise_for_status, Nat.not_le.mpr hs]

/-- Witness for C1: on the mock success route returning 200 with body
"Mock response data", `fetch_data` returns exactly that string. -/
theorem fetch_data_success_returns_body_witness :
    mockWorld "http://localhost:8080/test"
      = .respond ⟨200, "Mock response data"⟩ ∧
    (200 : Nat) < 400 ∧
    (fetch_data mockWorld "http://localhost:8080/test").1
      = .ok "Mock response data" :=
  ⟨by decide, by decide,
   fetch_data_success_returns_body mockWorld "http://localhost:8080/test"
     ⟨200, "Mock response data"⟩ (by decide) (by decide)⟩

/-- C2: for every URL whose server responds with a failure status
(status ≥ 400, e.g. 404), `fetch_data` raises a `ClientResponseError`
carrying that status code and the requested URL, and does not return a
string. -/
theorem fetch_data_http_error (w : World) (url : String)
    (r : HttpResponse) (hw : w url = .respond r) (hs : 400 ≤ r.status) :
    (fetch_data w url).1 = .clientResponseError r.status url ∧
    ∀ b : String, (fetch_data w url).1 ≠ .ok b := by
  constructor
  · simp [fetch_data, hw, raise_for_status, hs]
  · intro b
    simp [fetch_data, hw, raise_for_status, hs]

/-- Witness for C2: on the mock 404 route, `fetch_data` fails with a
`ClientResponseError` carrying status 404 and the URL, returning no
string. -/
theorem fetch_data_http_error_witness :
    mockWorld "http://localhost:8080/nonexistent"
      = .respond ⟨404, "404: Not Found"⟩ ∧
    (400 : Nat) ≤ 404 ∧
    ((fetch_data mockWorld "http://localhost:8080/nonexistent").1
        = .clientResponseError 404 "http://localhost:8080/nonexistent" ∧
      ∀ b : String,
        (fetch_data mockWorld "http://localhost:8080/nonexistent").1
          ≠ .ok b) :=
  ⟨by decide, by decide,
   fetch_data_http_error mockWorld "http://localhost:8080/nonexistent"
     ⟨404, "404: Not Found"⟩ (by decide) (by decide)⟩

/-- C3: for every URL for which the request fails before any status code is
obtained, `fetch_data` raises the transport-level error, which propagates
to the caller after a single request attempt (no retry, no recovery, and no
status inspection). -/
theorem fetch_data_transport_error (w : World) (url : String)
    (hw : w url = .transportFail) :
    (fetch_data w url).1 = .clientConnectorError url ∧
    ((fetch_data w url).2.filter isSendRequest) = [.sendRequest url] ∧
    ∀ s : Nat, Event.checkStatus s ∉ (fetch_data w url).2 := by
  refine ⟨?_, ?_, ?_⟩
  · simp [fetch_data, hw]
  · simp [fetch_data, hw, isSendRequest]
  · intro s
    simp [fetch_data, hw]

/-- Witness for C3: on a network where every host is unreachable,
`fetch_data` fails with the transport error after one request attempt. -/
theorem fetch_data_transport_error_witness :
    deadWorld "http://10.255.255.1:81/" = .transportFail ∧
    ((fetch_data deadWorld "http://10.255.255.1:81/").1
        = .clientConnectorError "http://10.255.255.1:81/" ∧
      ((fetch_data deadWorld "http://10.255.255.1:81/").2.filter
          isSendRequest) = [.sendRequest "http://10.255.255.1:81/"] ∧
      ∀ s : Nat,
        Event.checkStatus s
          ∉ (fetch_data deadWorld "http://10.255.255.1:81/").2) :=
  ⟨rfl, fetch_data_transport_error deadWorld "http://10.255.255.1:81/" rfl⟩

/-- C4: on every call to `fetch_data` — whatever the network does and
whichever exit path is taken (returned body, HTTP-status error, transport
failure) — the session is acquired exactly once, released exactly once, the
acquisition is the first event, and the release is the last, so no session
outlives the call. -/
theorem fetch_data_session_released (w : World) (url : String) :
    (fetch_data w url).2.count .acquireSession = 1 ∧
    (fetch_data w url).2.count .releaseSession = 1 ∧
    (fetch_data w url).2.head? = some .acquireSession ∧
    (fetch_data w url).2.getLast? = some .releaseSession := by
  cases hw : w url with
  | transportFail => simp [fetch_data, hw, List.count_cons, beq_iff_eq]
  | respond r =>
    by_cases hs : raise_for_status r.status <;>
      simp [fetch_data, hw, hs, List.count_cons, beq_iff_eq, List.getLast?]

/-- C5: the status code is inspected before any body read: on a failure
status the call's trace contains the status check but no body-read event
(the body is never materialized), and a body read occurs in a trace only
for a delivered response whose status passed the check, strictly after the
status-check event. -/
theorem fetch_data_status_checked_before_body (w : World) (url : String) :
    (∀ r : HttpResponse, w url = .respond r → 400 ≤ r.status →
      Event.checkStatus r.status ∈ (fetch_data w url).2 ∧
      ∀ u : String, Event.readBody u ∉ (fetch_data w url).2) ∧
    (∀ u : String, Event.readBody u ∈ (fetch_data w url).2 →
      ∃ r : HttpResponse, w url = .respond r ∧ r.status < 400 ∧ u = url ∧
        (fetch_data w url).2
          = [.acquireSession, .sendRequest url, .checkStatus r.status,
             .readBody url, .releaseSession]) := by
  constructor
  · intro r hw hs
    constructor
    · simp [fetch_data, hw, raise_for_status, hs]
    · intro u
      simp [fetch_data, hw, raise_for_status, hs]
  · intro u hu
    cases hw : w url with
    | transportFail => simp [fetch_data, hw] at hu
    | respond r =>
      by_cases hs : raise_for_status r.status
      · simp [fetch_data, hw, hs] at hu
      · simp [fetch_data, hw, hs] at hu
        refine ⟨r, rfl, ?_, hu, ?_⟩
        · exact Nat.not_le.mp (by simpa [raise_for_status] using hs)
        · simp [fetch_data, hw, hs]

/-- C6: two sequential calls on the same unchanged success route return the
same body string both times, and the combined trace contains two request
events — each call issues its own independent network request, with no
caching and no state carried between the calls. -/
theorem fetch_data_idempotent_no_caching (w : World) (url : String)
    (r : HttpResponse) (hw : w url = .respond r) (hs : r.status < 400) :
    (fetch_data_twice w url).1.1 = .ok r.body ∧
    (fetch_data_twice w url).1.2 = .ok r.body ∧
    (fetch_data_twice w url).1.1 = (fetch_data_twice w url).1.2 ∧
    ((fetch_data_twice w url).2.filter isSendRequest)
      = [.sendRequest url, .sendRequest url] := by
  have hne : ¬ raise_for_status r.status := by
    simp [raise_for_status, Nat.not_le.mpr hs]
  refine ⟨?_, ?_, ?_, ?_⟩ <;>
    simp [fetch_data_twice, fetch_data, hw, hne, isSendRequest]

/-- Witness for C6: two calls on the mock success route both return
"Mock response data" and issue two separate requests. -/
theorem fetch_data_idempotent_no_caching_witness :
    mockWorld "http://localhost:8080/test"
      = .respond ⟨200, "Mock response data"⟩ ∧
    (200 : Nat) < 400 ∧
    ((fetch_data_twice mockWorld "http://localhost:8080/test").1.1
        = .ok "Mock response data" ∧
      (fetch_data_twice mockWorld "http://localhost:8080/test").1.2
        = .ok "Mock response data" ∧
      (fetch_data_twice mockWorld "http://localhost:8080/test").1.1
        = (fetch_data_twice mockWorld "http://localhost:8080/test").1.2 ∧
      ((fetch_data_twice mockWorld "http://localhost:8080/test").2.filter
          isSendRequest)
        = [.sendRequest "http://localhost:8080/test",
           .sendRequest "http://localhost:8080/test"]) :=
  ⟨by decide, by decide,
   fetch_data_idempotent_no_caching mockWorld "http://localhost:8080/test"
     ⟨200, "Mock response data"⟩ (by decide) (by decide)⟩

/-- C7: calls to `fetch_data` do not interfere: the outcome and trace of a
call depend only on its own requested URL and that route's behavior — two
networks agreeing on one URL give identical calls there, however the other
routes (those another concurrent call would touch) differ, since no mutable
state is shared between calls. -/
theorem fetch_data_no_interference (w w' : World) (url : String)
    (h : w url = w' url) :
    fetch_data w url = fetch_data w' url := by
  unfold fetch_data
  rw [h]

/-- Witness for C7: the mock-server network, and a network that agrees with
it on the "/test" route but fails at the transport level on every other
route, give identical calls at "/test" — the other routes never influence
the call's outcome or trace. -/
theorem fetch_data_no_interference_witness :
    mockWorld "http://localhost:8080/test"
      = (fun u => if u = "http://localhost:8080/test" then
          NetBehavior.respond ⟨200, "Mock response data"⟩
        else NetBehavior.transportFail) "http://localhost:8080/test" ∧
    fetch_data mockWorld "http://localhost:8080/test"
      = fetch_data
          (fun u => if u = "http://localhost:8080/test" then
            NetBehavior.respond ⟨200, "Mock response data"⟩
          else NetBehavior.transportFail)
          "http://localhost:8080/test" :=
  ⟨by decide,
   fetch_data_no_interference mockWorld
     (fun u => if u = "http://localhost:8080/test" then
       NetBehavior.respond ⟨200, "Mock response data"⟩
     else NetBehavior.transportFail)
     "http://localhost:8080/test" (by decide)⟩

/-- C8: run directly as a script, the module issues exactly one request, to
the hardcoded URL "https://example.com"; on a success response it prints
the fetched text and exits 0, and on any error it prints nothing and exits
nonzero with the uncaught error. -/
theorem runScript_spec (w : World) :
    ((runScript w).1.filter isSendRequest) = [.sendRequest mainUrl] ∧
    (∀ r : HttpResponse, w mainUrl = .respond r → r.status < 400 →
      (runScript w).2 = 0 ∧ Event.print r.body ∈ (runScript w).1) ∧
    (w mainUrl = .transportFail ∨
        (∃ r : HttpResponse, w mainUrl = .respond r ∧ 400 ≤ r.status) →
      (runScript w).2 ≠ 0 ∧ ∀ b : String, Event.print b ∉ (runScript w).1) := by
  refine ⟨?_, ?_, ?_⟩
  · cases hw : w mainUrl with
    | transportFail => simp [runScript, fetch_data, hw, isSendRequest]
    | respond r =>
      by_cases hs : raise_for_status r.status <;>
        simp [runScript, fetch_data, hw, hs, isSendRequest]
  · intro r hw hs
    have hne : ¬ raise_for_status r.status := by
      simp [raise_for_status, Nat.not_le.mpr hs]
    constructor <;> simp [runScript, fetch_data, hw, hne]
  · intro hcase
    rcases hcase with hw | ⟨r, hw, hs⟩
    · constructor <;> simp [runScript, fetch_data, hw]
    · have hy : raise_for_status r.status = true := by
        simp [raise_for_status, hs]
      constructor <;> simp [runScript, fetch_data, hw, hy]

/-- C9: `fetch_data` raises at the status check exactly for statuses ≥ 400:
for every delivered response it returns the body iff the status is strictly
below 400 (including 1xx and non-followed 3xx statuses such as 304), and
raises the status error iff the status is at least 400. -/
theorem fetch_data_raises_iff_ge_400 (w : World) (url : String)
    (r : HttpResponse) (hw : w url = .respond r) :
    ((fetch_data w url).1 = .ok r.body ↔ r.status < 400) ∧
    ((fetch_data w url).1 = .clientResponseError r.status url ↔
      400 ≤ r.status) := by
  by_cases hs : raise_for_status r.status
  · have h4 : 400 ≤ r.status := by simpa [raise_for_status] using hs
    constructor
    · simp [fetch_data, hw, hs, Nat.not_lt.mpr h4]
    · simp [fetch_data, hw, hs, h4]
  · have h4 : r.status < 400 :=
      Nat.not_le.mp (by simpa [raise_for_status] using hs)
    constructor
    · simp [fetch_data, hw, hs, h4]
    · simp [fetch_data, hw, hs, Nat.not_le.mpr h4]

/-- Witness for C9: a 304 Not Modified response is below 400, so the call
does not raise at the status check and returns the (empty) body. -/
theorem fetch_data_raises_iff_ge_400_witness :
    redirectWorld "http://localhost:8080/any" = .respond ⟨304, ""⟩ ∧
    (((fetch_data redirectWorld "http://localhost:8080/any").1
          = .ok "" ↔ (304 : Nat) < 400) ∧
      ((fetch_data redirectWorld "http://localhost:8080/any").1
          = .clientResponseError 304 "http://localhost:8080/any" ↔
        (400 : Nat) ≤ 304)) :=
  ⟨rfl,
   fetch_data_raises_iff_ge_400 redirectWorld "http://localhost:8080/any"
     ⟨304, ""⟩ rfl⟩

/-- C10: importing the module (running its top level with `__name__` not
equal to `"__main__"`) performs no event at all — no network request and no
printing; the fetch of the hardcoded URL happens only under the main-module
guard. -/
theorem import_no_side_effects (w : World) :
    runModule false w = [] ∧ runModule true w = (runScript w).1 := by
  constructor <;> rfl

end AsyncRequest
